import Mathlib

/-!
Verification of a Discord image-moderation bot (files `bot.py` and
`run_time.py`).  The development shallowly embeds the violation ledger
(`ModerationData`), the escalation policy (`EscalationSystem`), the
persistence layer (`load_data` / `save_data`) and the enforcement pipeline
(`on_message` / `handle_nsfw_infraction`) as pure Lean functions, and proves
or refutes the specified properties about them.

Modelling conventions:
  - Python dicts become association lists with unique keys, accessed through
    `lookupKey` / `setKey` / `delKey` below; Python `dict.get(k, d)` becomes
    `lookupD`.
  - Guild ids and user ids are integers; the Python code keys its dicts by
    `str(id)`, and `str` is injective on integers, so integer keys are
    faithful.
  - Classification scores are rationals; the classifier returns `-1` as its
    failure sentinel, exactly as `analyze_image` does.
  - `timedelta` durations are counted in minutes.
  - A Python function that falls off its end returns `None`; this is modelled
    as `none` where the return value matters.
-/

/-- Lookup in an association list, mirroring Python `key in d` / `d[key]`. -/
def lookupKey {α β : Type} [DecidableEq α] : List (α × β) → α → Option β
  | [], _ => none
  | (k', v') :: rest, k => if k' = k then some v' else lookupKey rest k

/-- Python `d.get(key, default)`. -/
def lookupD {α β : Type} [DecidableEq α] (m : List (α × β)) (k : α) (d : β) : β :=
  (lookupKey m k).getD d

/-- Python `d[key] = v`: replace the binding if the key is present, append it
otherwise. -/
def setKey {α β : Type} [DecidableEq α] : List (α × β) → α → β → List (α × β)
  | [], k, v => [(k, v)]
  | (k', v') :: rest, k, v =>
      if k' = k then (k, v) :: rest else (k', v') :: setKey rest k v

/-- Python `del d[key]` on a dict with unique keys: drop every binding of the
key. -/
def delKey {α β : Type} [DecidableEq α] : List (α × β) → α → List (α × β)
  | [], _ => []
  | (k', v') :: rest, k =>
      if k' = k then delKey rest k else (k', v') :: delKey rest k

theorem lookupKey_setKey_self {α β : Type} [DecidableEq α]
    (m : List (α × β)) (k : α) (v : β) : lookupKey (setKey m k v) k = some v := by
  induction m with
  | nil => simp [setKey, lookupKey]
  | cons hd tl ih =>
      obtain ⟨k', v'⟩ := hd
      by_cases h : k' = k
      · simp [setKey, h, lookupKey]
      · simp [setKey, h, lookupKey, ih]

theorem lookupKey_setKey_ne {α β : Type} [DecidableEq α]
    (m : List (α × β)) (k k' : α) (v : β) (h : k ≠ k') :
    lookupKey (setKey m k v) k' = lookupKey m k' := by
  induction m with
  | nil => simp [setKey, lookupKey, h]
  | cons hd tl ih =>
      obtain ⟨k₀, v₀⟩ := hd
      by_cases h₀ : k₀ = k
      · subst h₀; simp [setKey, lookupKey, h, ih]
      · simp [setKey, h₀, lookupKey, ih]

theorem lookupKey_delKey_self {α β : Type} [DecidableEq α]
    (m : List (α × β)) (k : α) : lookupKey (delKey m k) k = none := by
  induction m with
  | nil => simp [delKey, lookupKey]
  | cons hd tl ih =>
      obtain ⟨k₀, v₀⟩ := hd
      by_cases h₀ : k₀ = k
      · simp [delKey, h₀, ih]
      · simp [delKey, h₀, lookupKey, ih]

theorem lookupKey_delKey_ne {α β : Type} [DecidableEq α]
    (m : List (α × β)) (k k' : α) (h : k ≠ k') :
    lookupKey (delKey m k) k' = lookupKey m k' := by
  induction m with
  | nil => simp [delKey]
  | cons hd tl ih =>
      obtain ⟨k₀, v₀⟩ := hd
      by_cases h₀ : k₀ = k
      · subst h₀; simp [delKey, lookupKey, h, ih]
      · simp [delKey, h₀, lookupKey, ih]

theorem setKey_setKey_same {α β : Type} [DecidableEq α]
    (m : List (α × β)) (k : α) (v w : β) :
    setKey (setKey m k v) k w = setKey m k w := by
  induction m with
  | nil => simp [setKey]
  | cons hd tl ih =>
      obtain ⟨k₀, v₀⟩ := hd
      by_cases h₀ : k₀ = k
      · simp [setKey, h₀]
      · simp [setKey, h₀, ih]

/-! ## The violation ledger (`ModerationData` in `bot.py`)

`self.data` is a dict with three sections: `enabled_servers`
(guild id → bool), `user_warnings` (guild id → user id → count) and
`moderation_log` (a JSON list).  The typed in-memory view used by the
ledger operations: -/

/-- A JSON-like value, used for the persisted document and for audit log
entries (the code never constructs one of the latter). -/
inductive Json where
  | null : Json
  | bool : Bool → Json
  | num : Int → Json
  | str : String → Json
  | arr : List Json → Json
  | obj : List (String × Json) → Json

/-- The in-memory `self.data` of `ModerationData`. -/
structure ModData where
  enabled_servers : List (Int × Bool)
  user_warnings : List (Int × List (Int × Nat))
  moderation_log : List Json

/-- The dict built by `ModerationData.__init__`: all three sections empty. -/
def initialData : ModData := ⟨[], [], []⟩

/-- `ModerationData.is_enabled`: `self.data['enabled_servers'].get(str(guild_id), False)`. -/
def is_enabled (d : ModData) (guild_id : Int) : Bool :=
  lookupD d.enabled_servers guild_id false

/-- `ModerationData.set_enabled`: `self.data['enabled_servers'][str(guild_id)] = enabled`. -/
def set_enabled (d : ModData) (guild_id : Int) (enabled : Bool) : ModData :=
  { d with enabled_servers := setKey d.enabled_servers guild_id enabled }

/-- `ModerationData.get_user_warnings`:
`self.data['user_warnings'].get(str(guild_id), {}).get(str(user_id), 0)`. -/
def get_user_warnings (d : ModData) (guild_id user_id : Int) : Nat :=
  lookupD (lookupD d.user_warnings guild_id []) user_id 0

/-- `ModerationData.increment_warning`: ensure the guild map exists, then
`self.data['user_warnings'][g][u] = self.get_user_warnings(g, u) + 1`.
The Python method has no `return` statement. -/
def increment_warning (d : ModData) (guild_id user_id : Int) : ModData :=
  let gw := lookupD d.user_warnings guild_id []
  { d with
    user_warnings :=
      setKey d.user_warnings guild_id
        (setKey gw user_id (get_user_warnings d guild_id user_id + 1)) }

/-- The value a call to `increment_warning` produces in Python: `None`,
paired with the mutated state.  `none` is Python `None`; the spec expects
`some` of the new count here. -/
def increment_warning_call (d : ModData) (guild_id user_id : Int) :
    ModData × Option Nat :=
  (increment_warning d guild_id user_id, none)

/-- Python truthiness of an `int = None` default parameter: `None` and `0`
are falsy, every other integer is truthy. -/
def truthyId (x : Option Int) : Bool := x.getD 0 != 0

/-- `ModerationData.reset_warnings(guild_id=None, user_id=None)`.  Mode
dispatch is `if guild_id and user_id: ... elif guild_id: ... else: ...`,
i.e. by Python truthiness of the two arguments. -/
def reset_warnings (d : ModData) (guild_id user_id : Option Int) : ModData :=
  if truthyId guild_id && truthyId user_id then
    let g := guild_id.getD 0
    let u := user_id.getD 0
    match lookupKey d.user_warnings g with
    | some gw =>
        if (lookupKey gw u).isSome then
          { d with user_warnings := setKey d.user_warnings g (delKey gw u) }
        else d
    | none => d
  else if truthyId guild_id then
    let g := guild_id.getD 0
    if (lookupKey d.user_warnings g).isSome then
      { d with user_warnings := setKey d.user_warnings g [] }
    else d
  else
    { d with user_warnings := [] }

/-! ## The escalation policy (`EscalationSystem` in `bot.py`) -/

/-- `EscalationSystem.TIMEOUT_LEVELS`, durations in minutes. -/
def TIMEOUT_LEVELS : List (Int × Nat) :=
  [(1, 10), (2, 60), (3, 180), (4, 360)]

/-- `EscalationSystem.calculate_timeout`:
`TIMEOUT_LEVELS.get(min(warning_count, 4), TIMEOUT_LEVELS[4])`. -/
def calculate_timeout (warning_count : Int) : Nat :=
  lookupD TIMEOUT_LEVELS (min warning_count 4) (lookupD TIMEOUT_LEVELS 4 0)

/-! ## The enforcement pipeline (`on_message` / `handle_nsfw_infraction`) -/

/-- `NSFW_THRESHOLD = 0.5` in `bot.py`. -/
def NSFW_THRESHOLD : ℚ := 1 / 2

/-- A message attachment: its `content_type` hint (possibly absent) and its
`url`, which is what `analyze_image` receives. -/
structure Attachment where
  content_type : Option String
  url : String

/-- The attachment filter in `on_message`:
`if attachment.content_type and "image" in attachment.content_type`.
An absent or empty `content_type` is falsy; `"image" in ct` is substring
containment. -/
def isImage (a : Attachment) : Bool :=
  match a.content_type with
  | none => false
  | some ct => ct != "" && decide ("image".toList <:+: ct.toList)

/-- Outcomes of the two external moderation actions, as returned by
`safe_delete_message` and `safe_timeout_user` (`True` on success, `False`
on `Forbidden` or any other exception). -/
structure ExtOutcomes where
  delete_ok : Bool
  timeout_ok : Bool

/-- The structured notification embed built by `handle_nsfw_infraction`:
user mention, NSFW score, warning count, timeout duration, the two action
outcomes, and the maximum-escalation field added when the count reaches 4. -/
structure Notice where
  user : Int
  score : ℚ
  warning_count : Nat
  timeout_minutes : Nat
  message_removed : Bool
  user_timed_out : Bool
  max_escalation : Bool

/-- Everything `handle_nsfw_infraction` leaves behind: the mutated ledger,
the notification sent to the channel, and whether `save_data` was invoked. -/
structure InfractionResult where
  data : ModData
  notice : Notice
  saved : Bool

/-- `handle_nsfw_infraction(message, score)`: increment the warning count,
re-read it, compute the timeout, attempt deletion and timeout (outcomes are
external inputs here), build and send the embed, then save.  Nothing is ever
appended to `moderation_log`. -/
def handle_nsfw_infraction (d : ModData) (guild_id user_id : Int) (score : ℚ)
    (ext : ExtOutcomes) : InfractionResult :=
  let d1 := increment_warning d guild_id user_id
  let warning_count := get_user_warnings d1 guild_id user_id
  let timeout_minutes := calculate_timeout (warning_count : Int)
  { data := d1
    notice :=
      { user := user_id
        score := score
        warning_count := warning_count
        timeout_minutes := timeout_minutes
        message_removed := ext.delete_ok
        user_timed_out := ext.timeout_ok
        max_escalation := decide (warning_count ≥ 4) }
    saved := true }

/-- The attachment loop of `on_message` (lines 287 to 299 of `bot.py`):
skip non-image attachments, classify, skip the sentinel `-1`, and on the
first score above the threshold run `handle_nsfw_infraction` and `break`. -/
def scanAttachments (classify : String → ℚ) (d : ModData)
    (guild_id user_id : Int) (ext : ExtOutcomes) :
    List Attachment → ModData × Option InfractionResult
  | [] => (d, none)
  | a :: rest =>
      if isImage a then
        let score := classify a.url
        if score = -1 then
          scanAttachments classify d guild_id user_id ext rest
        else if score > NSFW_THRESHOLD then
          let r := handle_nsfw_infraction d guild_id user_id score ext
          (r.data, some r)
        else
          scanAttachments classify d guild_id user_id ext rest
      else
        scanAttachments classify d guild_id user_id ext rest

/-- An inbound message event: author bot flag, optional guild, author id
and the attachment list in arrival order. -/
structure Message where
  author_bot : Bool
  guild : Option Int
  author : Int
  attachments : List Attachment

/-- The moderation part of the `on_message` handler: return early for bot
authors, for direct messages, and for guilds where moderation is not
enabled; otherwise scan the attachments. -/
def on_message (classify : String → ℚ) (d : ModData) (m : Message)
    (ext : ExtOutcomes) : ModData × Option InfractionResult :=
  if m.author_bot then (d, none)
  else
    match m.guild with
    | none => (d, none)
    | some g =>
        if is_enabled d g then
          scanAttachments classify d g m.author ext m.attachments
        else (d, none)

/-! ## Persistence (`load_data` / `save_data`) -/

/-- The three raw sections of `self.data` as seen at the persistence
boundary, before any type checking (Python performs none). -/
structure RawData where
  enabled_servers : Json
  user_warnings : Json
  moderation_log : Json

/-- The default document: three empty sections, as in
`ModerationData.__init__` and in the `except` branch of `load_data`. -/
def defaultRaw : RawData := ⟨.obj [], .obj [], .arr []⟩

/-- What the backing file looks like to `load_data`: missing, raising on
read or on `json.loads`, or parsed to a JSON value. -/
inductive FileState where
  | absent : FileState
  | unreadable : FileState
  | parsed : Json → FileState

/-- The observable outcome of `ModerationData.load_data`: the resulting
`self.data`, whether `save_data` was invoked during loading, and whether
`logger.error` fired. -/
structure LoadResult where
  data : RawData
  savedDefault : Bool
  loggedError : Bool

/-- `ModerationData.load_data`.  A missing file keeps the constructor
default and saves it.  A parsed dict has each section read with
`loaded_data.get(key, default)` and accepted verbatim.  A read error, a
parse error, or a parsed non-dict (whose `.get` raises `AttributeError`)
all land in the `except` branch: log, reset to the default, save. -/
def load_data : FileState → LoadResult
  | .absent => ⟨defaultRaw, true, false⟩
  | .unreadable => ⟨defaultRaw, true, true⟩
  | .parsed j =>
      match j with
      | .obj fields =>
          ⟨⟨lookupD fields "enabled_servers" (.obj []),
            lookupD fields "user_warnings" (.obj []),
            lookupD fields "moderation_log" (.arr [])⟩, false, false⟩
      | _ => ⟨defaultRaw, true, true⟩

/-- `json.dumps(self.data)`: the document serialized wholesale, with its
three top-level keys. -/
def dumps (d : RawData) : Json :=
  .obj [("enabled_servers", d.enabled_servers),
        ("user_warnings", d.user_warnings),
        ("moderation_log", d.moderation_log)]

/-- Whether the attempted file write succeeds or raises. -/
inductive WriteOutcome where
  | ok : WriteOutcome
  | err : WriteOutcome

/-- The observable outcome of `ModerationData.save_data`: the complete
document on disk afterwards (`none` when the write failed and no complete
snapshot was written), the value returned to the caller, whether
`logger.error` fired, and the in-memory state afterwards. -/
structure SaveResult where
  fileAfter : Option Json
  returned : Option Bool
  loggedError : Bool
  dataAfter : RawData

/-- `ModerationData.save_data`: try to write `json.dumps(self.data)`; on any
exception, log the error.  The method has no `return` statement, so the
caller always receives `None` (modelled `none`), and `self.data` is never
touched. -/
def save_data (d : RawData) (w : WriteOutcome) : SaveResult :=
  match w with
  | .ok => ⟨some (dumps d), none, false, d⟩
  | .err => ⟨none, none, true, d⟩

/-- Modelled from the spec: the startup invariant that a loaded snapshot has
three well-typed top-level sections — an id-to-bool enablement map, an
id-to-(id-to-nonnegative-count) warnings map, and an audit array.  The
source performs no such check; this predicate exists to compare the loaded
data against the invariant the spec states. -/
def wellTypedSnapshot (r : RawData) : Bool :=
  (match r.enabled_servers with
   | .obj fields => fields.all fun p =>
      match p.2 with
      | .bool _ => true
      | _ => false
   | _ => false) &&
  (match r.user_warnings with
   | .obj fields => fields.all fun p =>
      match p.2 with
      | .obj inner => inner.all fun q =>
          match q.2 with
          | .num n => decide (0 ≤ n)
          | _ => false
      | _ => false
   | _ => false) &&
  (match r.moderation_log with
   | .arr _ => true
   | _ => false)

/-! ## Helper lemmas -/

theorem get_user_warnings_increment (d : ModData) (g u g' u' : Int) :
    get_user_warnings (increment_warning d g u) g' u' =
      get_user_warnings d g' u' + (if g = g' ∧ u = u' then 1 else 0) := by
  unfold increment_warning get_user_warnings
  by_cases hg : g = g'
  · subst hg
    by_cases hu : u = u'
    · subst hu
      simp [lookupD, lookupKey_setKey_self]
    · simp [lookupD, lookupKey_setKey_self, lookupKey_setKey_ne _ u u' _ hu, hu]
  · simp [lookupD, lookupKey_setKey_ne _ g g' _ hg, hg]

theorem moderation_log_increment (d : ModData) (g u : Int) :
    (increment_warning d g u).moderation_log = d.moderation_log := rfl

theorem calculate_timeout_eq (c : Int) :
    calculate_timeout c =
      if c ≤ 0 then 360 else if c = 1 then 10 else if c = 2 then 60
      else if c = 3 then 180 else 360 := by
  by_cases h1 : c = 1
  · subst h1; decide
  by_cases h2 : c = 2
  · subst h2; decide
  by_cases h3 : c = 3
  · subst h3; decide
  by_cases h4 : 4 ≤ c
  · have hm : min c 4 = 4 := min_eq_right (by omega)
    have h0 : ¬ c ≤ 0 := by omega
    simp only [calculate_timeout, TIMEOUT_LEVELS, lookupD, lookupKey, hm]
    norm_num [h0, h1, h2, h3]
  · have h0 : c ≤ 0 := by omega
    have hm : min c 4 = c := min_eq_left (by omega)
    have e1 : ¬ ((1 : Int) = c) := by omega
    have e2 : ¬ ((2 : Int) = c) := by omega
    have e3 : ¬ ((3 : Int) = c) := by omega
    have e4 : ¬ ((4 : Int) = c) := by omega
    simp only [calculate_timeout, TIMEOUT_LEVELS, lookupD, lookupKey, hm]
    norm_num [h0, e1, e2, e3, e4]

/-! ## Claims -/

/-- C2 is refuted at warning count 0: the claim says a count of at most 0
maps to the value of count 1 (10 minutes), but `TIMEOUT_LEVELS.get(min(0, 4),
TIMEOUT_LEVELS[4])` misses the dict (keys 1 to 4) and returns the default,
the 6-hour maximum. -/
theorem calculate_timeout_zero_is_max :
    calculate_timeout 0 = 360 ∧ calculate_timeout 1 = 10 ∧
      calculate_timeout 0 ≠ calculate_timeout 1 := by decide

/-- C2 (amended): `calculate_timeout` maps count 1 to 10 minutes, 2 to 1
hour, 3 to 3 hours, and 4 or more to 6 hours; every count of at most 0
falls through to the 6-hour default (not to the value of count 1), so the
result is always positive and a zero-duration timeout is never produced. -/
theorem calculate_timeout_mapping (c : Int) :
    calculate_timeout c =
      (if c ≤ 0 then 360 else if c = 1 then 10 else if c = 2 then 60
       else if c = 3 then 180 else 360) ∧
    0 < calculate_timeout c := by
  refine ⟨calculate_timeout_eq c, ?_⟩
  rw [calculate_timeout_eq c]
  split_ifs <;> norm_num

/-- C3 is refuted on the return value: `increment_warning` has no `return`
statement, so the caller receives `None`, never the new count (here the new
count is 1 after one call on a fresh pair). -/
theorem increment_warning_returns_none :
    (increment_warning_call initialData 1 2).2 = none ∧
    (increment_warning_call initialData 1 2).2 ≠
      some (get_user_warnings (increment_warning_call initialData 1 2).1 1 2) := by
  decide

/-- C3 (amended): `increment_warning` reads the current count and stores
exactly that count plus 1, but returns `None` (not the new count); calling
it n times sequentially starting from the fresh initial state makes
`get_user_warnings` return n. -/
theorem increment_warning_adds_one (d : ModData) (g u : Int) (n : Nat) :
    get_user_warnings (increment_warning d g u) g u = get_user_warnings d g u + 1 ∧
    (increment_warning_call d g u).2 = none ∧
    get_user_warnings ((fun s => increment_warning s g u)^[n] initialData) g u = n := by
  refine ⟨?_, rfl, ?_⟩
  · simpa using get_user_warnings_increment d g u g u
  · induction n with
    | zero => simp [get_user_warnings, lookupD, lookupKey, initialData]
    | succ k ih =>
        rw [Function.iterate_succ_apply']
        simpa [ih] using
          get_user_warnings_increment ((fun s => increment_warning s g u)^[k] initialData) g u g u

/-- C1 is refuted on the audit clause: handling a qualifying violation
(score 4/5 over the 1/2 threshold, fresh member) increments the warning
count to 1 and saves, but appends nothing to the audit sequence — the code
contains no write to `moderation_log` at all. -/
theorem handle_infraction_appends_no_audit :
    (handle_nsfw_infraction initialData 1 2 (4 / 5) ⟨true, true⟩).data.moderation_log.length = 0 ∧
    get_user_warnings (handle_nsfw_infraction initialData 1 2 (4 / 5) ⟨true, true⟩).data 1 2 = 1 ∧
    (handle_nsfw_infraction initialData 1 2 (4 / 5) ⟨true, true⟩).saved = true := by
  refine ⟨rfl, ?_, rfl⟩
  decide

/-- C1 (amended): for every qualifying violation the pipeline increments the
member warning count and then saves the full snapshot, and both happen
regardless of whether the external deletion and timeout actions succeeded;
those outcomes and the score are reported in the notification, but no audit
entry is appended — the audit sequence is left unchanged. -/
theorem handle_infraction_increments_and_saves (d : ModData) (g u : Int)
    (score : ℚ) (ext : ExtOutcomes) :
    get_user_warnings (handle_nsfw_infraction d g u score ext).data g u =
      get_user_warnings d g u + 1 ∧
    (handle_nsfw_infraction d g u score ext).data.moderation_log = d.moderation_log ∧
    (handle_nsfw_infraction d g u score ext).saved = true ∧
    (handle_nsfw_infraction d g u score ext).notice.message_removed = ext.delete_ok ∧
    (handle_nsfw_infraction d g u score ext).notice.user_timed_out = ext.timeout_ok ∧
    (handle_nsfw_infraction d g u score ext).notice.score = score := by
  refine ⟨?_, rfl, rfl, rfl, rfl, rfl⟩
  show get_user_warnings (increment_warning d g u) g u = get_user_warnings d g u + 1
  simpa using get_user_warnings_increment d g u g u

theorem scanAttachments_eq_find (classify : String → ℚ) (d : ModData)
    (g u : Int) (ext : ExtOutcomes) (atts : List Attachment) :
    (scanAttachments classify d g u ext atts).2 =
      (atts.find? fun a => isImage a && decide (classify a.url > NSFW_THRESHOLD)).map
        (fun a => handle_nsfw_infraction d g u (classify a.url) ext) := by
  induction atts with
  | nil => rfl
  | cons a rest ih =>
      by_cases him : isImage a
      · by_cases hs : classify a.url = -1
        · have hnot : ¬ classify a.url > NSFW_THRESHOLD := by
            rw [hs, NSFW_THRESHOLD]; norm_num
          rw [List.find?_cons_of_neg _ (by simp [him, hnot])]
          simpa [scanAttachments, him, hs] using ih
        · by_cases ht : classify a.url > NSFW_THRESHOLD
          · rw [List.find?_cons_of_pos _ (by simp [him, ht])]
            simp [scanAttachments, him, hs, ht]
          · rw [List.find?_cons_of_neg _ (by simp [him, ht])]
            simpa [scanAttachments, him, hs, ht] using ih
      · rw [List.find?_cons_of_neg _ (by simp [him])]
        simpa [scanAttachments, him] using ih

/-- C4: for a non-bot message in an enabled community, the attachments are
scanned in arrival order and the pipeline output is exactly the enforcement
on the first attachment that is image-typed and whose score strictly exceeds
the 1/2 threshold (none when no attachment qualifies) — at most one
enforcement per message, using the first flagged attachment score.  The
failure sentinel needs no extra clause: -1 never exceeds the threshold. -/
theorem on_message_first_violation_wins (classify : String → ℚ) (d : ModData)
    (m : Message) (ext : ExtOutcomes) (g : Int)
    (hbot : m.author_bot = false) (hg : m.guild = some g)
    (hen : is_enabled d g = true) :
    (on_message classify d m ext).2 =
      (m.attachments.find? fun a =>
          isImage a && decide (classify a.url > NSFW_THRESHOLD)).map
        (fun a => handle_nsfw_infraction d g m.author (classify a.url) ext) := by
  rw [on_message, hbot, hg]
  simp only [Bool.false_eq_true, if_false, hen, if_true]
  exact scanAttachments_eq_find classify d g m.author ext m.attachments

/-- Witness for C4: a message with two flagged image attachments produces
exactly one enforcement, built from the first attachment score 3/5. -/
theorem on_message_first_violation_wins_witness :
    (on_message (fun url => if url = "a" then 3 / 5 else 9 / 10)
        (set_enabled initialData 1 true)
        ⟨false, some 1, 2, [⟨some "image/png", "a"⟩, ⟨some "image/jpeg", "b"⟩]⟩
        ⟨true, true⟩).2 =
      some (handle_nsfw_infraction (set_enabled initialData 1 true) 1 2 (3 / 5)
        ⟨true, true⟩) := by
  have him : isImage ⟨some "image/png", "a"⟩ = true := by decide
  have hgt : (3 : ℚ) / 5 > NSFW_THRESHOLD := by rw [NSFW_THRESHOLD]; norm_num
  rw [on_message_first_violation_wins
        (fun url => if url = "a" then 3 / 5 else 9 / 10)
        (set_enabled initialData 1 true)
        ⟨false, some 1, 2, [⟨some "image/png", "a"⟩, ⟨some "image/jpeg", "b"⟩]⟩
        ⟨true, true⟩ 1 rfl rfl (by decide)]
  simp [List.find?, him, hgt]

/-- C6: when the classifier returns the failure sentinel `-1` for an
attachment, the scan treats it as no violation and moves on: the result for
the message is the result of scanning the remaining attachments with the
same starting state, and with the sentinel attachment as the only one the
state is returned unchanged (no warning increment, no audit entry) and no
enforcement occurs.  Each attachment is classified at most once per scan, so
the failed classification is never retried. -/
theorem scan_failure_sentinel_skips (classify : String → ℚ) (d : ModData)
    (g u : Int) (ext : ExtOutcomes) (a : Attachment) (rest : List Attachment)
    (h : classify a.url = -1) :
    scanAttachments classify d g u ext (a :: rest) =
      scanAttachments classify d g u ext rest ∧
    scanAttachments classify d g u ext [a] = (d, none) := by
  constructor
  · by_cases him : isImage a
    · simp [scanAttachments, him, h]
    · simp [scanAttachments, him]
  · by_cases him : isImage a
    · simp [scanAttachments, him, h]
    · simp [scanAttachments, him]

/-- Witness for C6: the classifier fails on the only (image) attachment and
the ledger comes back untouched with no enforcement. -/
theorem scan_failure_sentinel_skips_witness :
    scanAttachments (fun _ => -1) initialData 1 2 ⟨true, true⟩
      [⟨some "image/png", "x"⟩] = (initialData, none) :=
  (scan_failure_sentinel_skips (fun _ => -1) initialData 1 2 ⟨true, true⟩
    ⟨some "image/png", "x"⟩ [] rfl).2

/-- C10: an attachment whose content-type hint is absent, or does not
contain the substring "image", is never classified and never triggers any
action: the scan result for the message is that of the remaining
attachments, and with such an attachment as the only one the state is
returned unchanged and no enforcement occurs. -/
theorem scan_skips_non_image (classify : String → ℚ) (d : ModData)
    (g u : Int) (ext : ExtOutcomes) (a : Attachment) (rest : List Attachment)
    (h : a.content_type = none ∨
      ∀ ct, a.content_type = some ct → ¬ ("image".toList <:+: ct.toList)) :
    scanAttachments classify d g u ext (a :: rest) =
      scanAttachments classify d g u ext rest ∧
    scanAttachments classify d g u ext [a] = (d, none) := by
  have him : isImage a = false := by
    obtain ⟨ct, url⟩ := a
    rcases h with h | h
    · simp only at h
      subst h
      rfl
    · cases ct with
      | none => rfl
      | some c =>
          have hc := h c rfl
          simp only [isImage, Bool.and_eq_false_iff]
          right
          exact decide_eq_false hc
  exact ⟨by simp [scanAttachments, him], by simp [scanAttachments, him]⟩

/-- Witness for C10: a video attachment is skipped even though its score
would be far above the threshold if it were classified. -/
theorem scan_skips_non_image_witness :
    scanAttachments (fun _ => 1) initialData 1 2 ⟨true, true⟩
      [⟨some "video/mp4", "x"⟩] = (initialData, none) :=
  (scan_skips_non_image (fun _ => 1) initialData 1 2 ⟨true, true⟩
    ⟨some "video/mp4", "x"⟩ []
    (Or.inr fun ct hct => by cases hct; decide)).2

/-- C9: `increment_warning` performs its read-modify-write synchronously,
with no await point, so on the single-threaded cooperative event loop each
call is one atomic step and any interleaving of concurrent pipeline
instances applies the calls in some sequential order.  For every such order
`ops` (increments for arbitrary keys, in any arrangement), the final count
of a key is its initial count plus exactly the number of increments for that
key: k concurrent increments on one key yield exactly k, with no lost
updates. -/
theorem concurrent_increments_no_lost_updates (ops : List (Int × Int))
    (d : ModData) (g u : Int) (k : Nat) :
    get_user_warnings (ops.foldl (fun s p => increment_warning s p.1 p.2) d) g u =
      get_user_warnings d g u +
        (ops.filter fun p => decide (p = (g, u))).length ∧
    get_user_warnings
      ((List.replicate k (g, u)).foldl (fun s p => increment_warning s p.1 p.2)
        initialData) g u = k := by
  constructor
  · induction ops generalizing d with
    | nil => simp
    | cons p rest ih =>
        rw [List.foldl_cons, ih (increment_warning d p.1 p.2),
          get_user_warnings_increment d p.1 p.2 g u, List.filter_cons]
        by_cases hp : p = (g, u)
        · obtain ⟨p1, p2⟩ := p
          rw [Prod.mk.injEq] at hp
          simp [hp]
          omega
        · have hne : ¬ (p.1 = g ∧ p.2 = u) := by
            intro hc
            exact hp (Prod.ext hc.1 hc.2)
          simp [hp, hne]
  · induction k with
    | zero => simp [get_user_warnings, lookupD, lookupKey, initialData]
    | succ n ih =>
        rw [List.replicate_succ', List.foldl_append]
        simpa [ih] using
          get_user_warnings_increment
            ((List.replicate n (g, u)).foldl
              (fun s p => increment_warning s p.1 p.2) initialData) g u g u

theorem isSome_false_eq_none {α : Type} {o : Option α}
    (h : ¬ o.isSome = true) : o = none := by
  cases o <;> simp_all

theorem reset_warnings_both_eq (d : ModData) (g u : Int) (hg : g ≠ 0) (hu : u ≠ 0) :
    reset_warnings d (some g) (some u) =
      match lookupKey d.user_warnings g with
      | some gw =>
          if (lookupKey gw u).isSome then
            { d with user_warnings := setKey d.user_warnings g (delKey gw u) }
          else d
      | none => d := by
  rw [reset_warnings]
  simp [truthyId, hg, hu]

theorem reset_warnings_guild_eq (d : ModData) (g : Int) (hg : g ≠ 0) :
    reset_warnings d (some g) none =
      if (lookupKey d.user_warnings g).isSome then
        { d with user_warnings := setKey d.user_warnings g [] }
      else d := by
  rw [reset_warnings]
  simp [truthyId, hg]

theorem reset_warnings_global_eq (d : ModData) :
    reset_warnings d none none = { d with user_warnings := [] } := rfl

/-- C7 is refuted at community id 0: Python truthiness treats a zero id the
same as an absent argument in the mode dispatch, so `reset_warnings(0)`
falls into the global branch and also wipes community 1, instead of leaving
every other community unchanged. -/
theorem reset_warnings_zero_id_resets_globally :
    get_user_warnings (⟨[], [(1, [(1, 3)])], []⟩ : ModData) 1 1 = 3 ∧
    get_user_warnings
      (reset_warnings ⟨[], [(1, [(1, 3)])], []⟩ (some 0) none) 1 1 = 0 := by
  decide

/-- C7 (amended): for nonzero community and member ids the three modes of
`reset_warnings` behave as specified and each is idempotent: resetting one
member makes that member count 0; resetting a community zeroes every member
of that community and leaves every other community unchanged; resetting
with no arguments zeroes everything.  A zero id is falsy in the Python mode
dispatch and falls through to a broader reset. -/
theorem reset_warnings_modes (d : ModData) (g u : Int) (hg : g ≠ 0) (hu : u ≠ 0) :
    get_user_warnings (reset_warnings d (some g) (some u)) g u = 0 ∧
    reset_warnings (reset_warnings d (some g) (some u)) (some g) (some u) =
      reset_warnings d (some g) (some u) ∧
    (∀ u', get_user_warnings (reset_warnings d (some g) none) g u' = 0) ∧
    (∀ g' u', g' ≠ g →
      get_user_warnings (reset_warnings d (some g) none) g' u' =
        get_user_warnings d g' u') ∧
    reset_warnings (reset_warnings d (some g) none) (some g) none =
      reset_warnings d (some g) none ∧
    (∀ g' u', get_user_warnings (reset_warnings d none none) g' u' = 0) ∧
    reset_warnings (reset_warnings d none none) none none =
      reset_warnings d none none := by
  refine ⟨?_, ?_, ?_, ?_, ?_, ?_, ?_⟩
  · cases hgw : lookupKey d.user_warnings g with
    | none =>
        have h1 : reset_warnings d (some g) (some u) = d := by
          rw [reset_warnings_both_eq d g u hg hu, hgw]
        rw [h1]
        simp [get_user_warnings, lookupD, hgw, lookupKey]
    | some gw =>
        by_cases hmem : (lookupKey gw u).isSome = true
        · have h1 : reset_warnings d (some g) (some u) =
              { d with user_warnings := setKey d.user_warnings g (delKey gw u) } := by
            rw [reset_warnings_both_eq d g u hg hu, hgw]
            simp [hmem]
          rw [h1]
          simp [get_user_warnings, lookupD, lookupKey_setKey_self,
            lookupKey_delKey_self]
        · have hnone : lookupKey gw u = none := isSome_false_eq_none hmem
          have h1 : reset_warnings d (some g) (some u) = d := by
            rw [reset_warnings_both_eq d g u hg hu, hgw]
            simp [hnone]
          rw [h1]
          simp [get_user_warnings, lookupD, hgw, hnone]
  · cases hgw : lookupKey d.user_warnings g with
    | none =>
        have h1 : reset_warnings d (some g) (some u) = d := by
          rw [reset_warnings_both_eq d g u hg hu, hgw]
        rw [h1, h1]
    | some gw =>
        by_cases hmem : (lookupKey gw u).isSome = true
        · have h1 : reset_warnings d (some g) (some u) =
              { d with user_warnings := setKey d.user_warnings g (delKey gw u) } := by
            rw [reset_warnings_both_eq d g u hg hu, hgw]
            simp [hmem]
          rw [h1, reset_warnings_both_eq _ g u hg hu]
          simp [lookupKey_setKey_self, lookupKey_delKey_self]
        · have hnone : lookupKey gw u = none := isSome_false_eq_none hmem
          have h1 : reset_warnings d (some g) (some u) = d := by
            rw [reset_warnings_both_eq d g u hg hu, hgw]
            simp [hnone]
          rw [h1, h1]
  · intro u'
    by_cases hgw : (lookupKey d.user_warnings g).isSome = true
    · have h1 : reset_warnings d (some g) none =
          { d with user_warnings := setKey d.user_warnings g [] } := by
        rw [reset_warnings_guild_eq d g hg]
        simp [hgw]
      rw [h1]
      simp [get_user_warnings, lookupD, lookupKey_setKey_self, lookupKey]
    · have hnone : lookupKey d.user_warnings g = none := isSome_false_eq_none hgw
      have h1 : reset_warnings d (some g) none = d := by
        rw [reset_warnings_guild_eq d g hg]
        simp [hgw]
      rw [h1]
      simp [get_user_warnings, lookupD, hnone, lookupKey]
  · intro g' u' hne
    by_cases hgw : (lookupKey d.user_warnings g).isSome = true
    · have h1 : reset_warnings d (some g) none =
          { d with user_warnings := setKey d.user_warnings g [] } := by
        rw [reset_warnings_guild_eq d g hg]
        simp [hgw]
      rw [h1]
      simp [get_user_warnings, lookupD, lookupKey_setKey_ne _ g g' _ (Ne.symm hne)]
    · have h1 : reset_warnings d (some g) none = d := by
        rw [reset_warnings_guild_eq d g hg]
        simp [hgw]
      rw [h1]
  · by_cases hgw : (lookupKey d.user_warnings g).isSome = true
    · have h1 : reset_warnings d (some g) none =
          { d with user_warnings := setKey d.user_warnings g [] } := by
        rw [reset_warnings_guild_eq d g hg]
        simp [hgw]
      rw [h1, reset_warnings_guild_eq _ g hg,
        if_pos (by simp [lookupKey_setKey_self])]
      simp [setKey_setKey_same]
    · have h1 : reset_warnings d (some g) none = d := by
        rw [reset_warnings_guild_eq d g hg]
        simp [hgw]
      rw [h1, h1]
  · intro g' u'
    rfl
  · rfl

/-- Witness for C7: member (1, 2) with 5 warnings is zeroed by a member
reset, and a reset of community 1 leaves member (4, 2) of community 4
untouched at 9 warnings. -/
theorem reset_warnings_modes_witness :
    get_user_warnings
      (reset_warnings ⟨[], [(1, [(2, 5), (3, 7)]), (4, [(2, 9)])], []⟩
        (some 1) (some 2)) 1 2 = 0 ∧
    get_user_warnings
      (reset_warnings ⟨[], [(1, [(2, 5), (3, 7)]), (4, [(2, 9)])], []⟩
        (some 1) none) 4 2 =
      get_user_warnings
        (⟨[], [(1, [(2, 5), (3, 7)]), (4, [(2, 9)])], []⟩ : ModData) 4 2 :=
  ⟨(reset_warnings_modes _ 1 2 (by decide) (by decide)).1,
   (reset_warnings_modes _ 1 2 (by decide) (by decide)).2.2.2.1 4 2 (by decide)⟩

/-- C5 is refuted on well-typedness: a backing file holding the valid JSON
dict with `enabled_servers` bound to the number 3 parses successfully, so
`load_data` accepts the section verbatim (no fallback, no re-save of the
default) even though the resulting snapshot is not well-typed; the default
snapshot itself is well-typed, so the failure is in acceptance, not in the
predicate. -/
theorem load_data_accepts_ill_typed_section :
    (load_data (.parsed (.obj [("enabled_servers", .num 3)]))).savedDefault = false ∧
    wellTypedSnapshot
      (load_data (.parsed (.obj [("enabled_servers", .num 3)]))).data = false ∧
    wellTypedSnapshot defaultRaw = true := by
  refine ⟨rfl, ?_, rfl⟩
  rfl

/-- C5 (amended): `load_data` always yields a snapshot with the three
top-level sections present: a missing file keeps the empty default and
immediately persists it; an unreadable or unparseable file, or a parsed
non-dict document, is logged and replaced by the immediately-persisted
empty default; a successfully parsed dict has each section read with its
empty default when missing — but present sections are taken verbatim with
no type validation, so the loaded snapshot need not be well-typed. -/
theorem load_data_defaults (fields : List (String × Json)) (s : String)
    (n : Int) (xs : List Json) (b : Bool) :
    load_data .absent = ⟨defaultRaw, true, false⟩ ∧
    load_data .unreadable = ⟨defaultRaw, true, true⟩ ∧
    load_data (.parsed (.obj fields)) =
      ⟨⟨lookupD fields "enabled_servers" (.obj []),
        lookupD fields "user_warnings" (.obj []),
        lookupD fields "moderation_log" (.arr [])⟩, false, false⟩ ∧
    load_data (.parsed (.str s)) = ⟨defaultRaw, true, true⟩ ∧
    load_data (.parsed (.num n)) = ⟨defaultRaw, true, true⟩ ∧
    load_data (.parsed (.bool b)) = ⟨defaultRaw, true, true⟩ ∧
    load_data (.parsed (.arr xs)) = ⟨defaultRaw, true, true⟩ ∧
    load_data (.parsed .null) = ⟨defaultRaw, true, true⟩ :=
  ⟨rfl, rfl, rfl, rfl, rfl, rfl, rfl, rfl⟩

/-- C8 is refuted on the reporting clause: `save_data` has no `return`
statement and swallows the exception, so the caller receives `None` whether
the write succeeded or failed — no success-or-failure value is ever
reported. -/
theorem save_data_reports_nothing :
    (save_data defaultRaw .err).returned = none ∧
    (save_data defaultRaw .ok).returned = none :=
  ⟨rfl, rfl⟩

/-- C8 (amended): a successful `save_data` writes the full serialized
snapshot, replacing the prior file content wholesale; a failed write is
logged and swallowed (the caller always receives `None`, so success and
failure are indistinguishable to it, rather than reported); in either case
the in-memory state is left exactly as it was — never rolled back. -/
theorem save_data_behavior (d : RawData) (w : WriteOutcome) :
    (save_data d .ok).fileAfter = some (dumps d) ∧
    (save_data d .ok).loggedError = false ∧
    (save_data d .err).fileAfter = none ∧
    (save_data d .err).loggedError = true ∧
    (save_data d w).returned = none ∧
    (save_data d w).dataAfter = d := by
  refine ⟨rfl, rfl, rfl, rfl, ?_, ?_⟩ <;> cases w <;> rfl
